import Mathlib

set_option maxRecDepth 8000

/-!
Shallow embedding of the Cameo webhook relay (src/main.py) and proofs of
the specified properties.

The program is a FastAPI service with four endpoints; the embedding models
each handler as a pure Lean function over explicit inputs:

* process configuration is a lookup function `String → Option String`
  standing for the environment (os.getenv);
* an inbound POST request is its (lowercased, as Starlette exposes them)
  header association list together with the outcome of attempting to parse
  its body as JSON; a raw-body model (`RawBody`, `parseBody`) additionally
  distinguishes a non-UTF-8 body, whose UnicodeDecodeError escapes the
  except json.JSONDecodeError clause and reaches the outer except clauses;
* the network is an explicit assignment of one `HttpxResult` per outbound
  task, plus the order in which the concurrent tasks complete;
* an exception raised inside the handler body outside the modelled pure
  computation is an explicit optional `PyExc` input, dispatched exactly as
  the except clauses of `webhook_handler` in src/main.py lines 158-182 do.
-/

namespace Cameo

/-- JSON values, the shape of request and response bodies. -/
inductive Json where
  | null
  | bool (b : Bool)
  | num (n : Int)
  | str (s : String)
  | arr (elems : List Json)
  | obj (fields : List (String × Json))

/-- Field lookup in a JSON object (first binding wins), `none` otherwise. -/
def Json.getField : Json → String → Option Json
  | .obj fields, k => fields.lookup k
  | _, _ => none

/-- os.getenv with a default: the configured value when the variable is set
(possibly to the empty string), the fallback otherwise. -/
def osGetenv (env : String → Option String) (name dflt : String) : String :=
  (env name).getD dflt

/-- src/main.py line 20. -/
def WEBHOOK_SECRET_TOKEN (env : String → Option String) : String :=
  osGetenv env "WEBHOOK_SECRET_TOKEN" "your-secret-token-here"

/-- src/main.py line 21. -/
def RELAY_URL_1 (env : String → Option String) : String :=
  osGetenv env "RELAY_URL_1" "https://your-destination-url-1.com/webhook"

/-- src/main.py line 22. -/
def RELAY_URL_2 (env : String → Option String) : String :=
  osGetenv env "RELAY_URL_2" "https://your-destination-url-2.com/webhook"

/-- src/main.py line 23. -/
def RELAY_URL_3 (env : String → Option String) : String :=
  osGetenv env "RELAY_URL_3" "https://your-destination-url-3.com/webhook"

/-- src/main.py line 27: the three relay URLs, in configured order. -/
def RELAY_URLS (env : String → Option String) : List String :=
  [RELAY_URL_1 env, RELAY_URL_2 env, RELAY_URL_3 env]

/-- dict.get on the inbound header dictionary (Starlette lowercases header
names, so keys are matched verbatim against lowercase names). -/
def headerGet (hs : List (String × String)) (name dflt : String) : String :=
  (hs.lookup name).getD dflt

/-- Outcome of the body try/except at src/main.py lines 86-93 in the cases
where no exception escapes it: the body was empty, or json decoding
succeeded, or it raised json.JSONDecodeError (which line 91 catches). A
decode failure that is not a json.JSONDecodeError escapes this block; that
case is modelled by `RawBody` and `parseBody` below, not here. -/
inductive BodyParse where
  | empty
  | ok (j : Json)
  | jsonError (msg : String)

/-- One inbound POST request: its headers and the parse outcome of its body. -/
structure InboundRequest where
  headers : List (String × String)
  bodyParse : BodyParse

/-- src/main.py line 79: `headers.get("x-drchrono-event", "unknown")`. -/
def drchrono_event (hs : List (String × String)) : String :=
  headerGet hs "x-drchrono-event" "unknown"

/-- src/main.py line 80: `headers.get("x-drchrono-signature", "")`. -/
def drchrono_signature (hs : List (String × String)) : String :=
  headerGet hs "x-drchrono-signature" ""

/-- src/main.py line 81: `headers.get("x-drchrono-delivery", "")`. -/
def drchrono_delivery (hs : List (String × String)) : String :=
  headerGet hs "x-drchrono-delivery" ""

/-- src/main.py lines 89-93: the parsed body, or an empty object when the
body is empty or json decoding raised. -/
def json_body : BodyParse → Json
  | .empty => Json.obj []
  | .ok j => j
  | .jsonError _ => Json.obj []

/-- src/main.py lines 96-104: the payload forwarded to every destination. -/
def relay_data (req : InboundRequest) : Json :=
  Json.obj
    [("headers", Json.obj
        [("X-drchrono-event", Json.str (drchrono_event req.headers)),
         ("X-drchrono-signature", Json.str (drchrono_signature req.headers)),
         ("X-drchrono-delivery", Json.str (drchrono_delivery req.headers)),
         ("Content-Type", Json.str "application/json")]),
     ("body", json_body req.bodyParse)]

/-- One outbound POST issued by `client.post` at src/main.py lines 114-121:
the client carries the single process-wide timeout it was constructed with
at line 107 (`httpx.AsyncClient(timeout=RELAY_TIMEOUT)`). -/
structure OutboundCall where
  url : String
  payload : Json
  contentType : String
  userAgent : String
  clientTimeout : Int

/-- src/main.py lines 111-122: one task per relay URL, all on the shared
client, hence all with the same timeout. -/
def buildTasks (urls : List String) (relayTimeout : Int) (payload : Json) :
    List OutboundCall :=
  urls.map fun u =>
    ⟨u, payload, "application/json", "Cameo-Webhook-Relay/1.0", relayTimeout⟩

/-- Kind of exception an outbound call can settle with (httpx hierarchy:
timeout, other transport or request failure, anything else). -/
inductive ExcKind where
  | timeout
  | transport
  | other
deriving DecidableEq, Repr

/-- How one awaited outbound call settles, as `asyncio.gather` with
`return_exceptions=True` hands it back at src/main.py line 125: either a
response object (any HTTP status) or the exception instance, carrying the
string `str(e)` the handler will record. -/
inductive HttpxResult where
  | response (status_code : Nat)
  | exc (kind : ExcKind) (detail : String)
deriving DecidableEq, Repr

/-- One entry of the `relay_results` list (src/main.py lines 131-144):
a dictionary with either a `status_code` field (response received) or an
`error` field (exception captured). -/
structure RelayResult where
  url_index : Nat
  url : String
  status : String
  status_code : Option Nat
  error : Option String
deriving DecidableEq, Repr

/-- src/main.py lines 129-144: classification of one settled task. A
received response of any HTTP status is recorded as status "success" with
the code verbatim; any captured exception, of whatever kind, is recorded as
status "error" with its `str(e)` detail. -/
def processResult (i : Nat) (url : String) : HttpxResult → RelayResult
  | .response code => ⟨i, url, "success", some code, none⟩
  | .exc _ detail => ⟨i, url, "error", none, some detail⟩

/-- src/main.py line 128: `for i, response in enumerate(responses, 1)`,
pairing each settled task with `RELAY_URLS[i-1]`. -/
def processResultsFrom : Nat → List String → List HttpxResult → List RelayResult
  | _, _, [] => []
  | i, urls, r :: rs =>
      processResult i (urls.getD (i - 1) "") r :: processResultsFrom (i + 1) urls rs

/-- Semantics of `asyncio.gather(*tasks, return_exceptions=True)` at
src/main.py line 125: the tasks settle in some completion order, and gather
reassembles the settled values indexed by task position, so the output is
ordered by task position whenever every task position occurs in the
completion order. -/
def gatherReassemble {α : Type} (tasks : List α) (completionOrder : List Nat) :
    List α :=
  (List.range tasks.length).filterMap fun i =>
    if i ∈ completionOrder then tasks[i]? else none

/-- The `relay_results` list built by the dispatch path for a given relay
URL list, per-task settlements and completion order. -/
def relay_results (urls : List String) (outcomes : List HttpxResult)
    (completionOrder : List Nat) : List RelayResult :=
  processResultsFrom 1 urls (gatherReassemble outcomes completionOrder)

/-- Rendering of one relay result entry into the response JSON: the success
shape has `status_code`, the error shape has `error`. -/
def relayResultJson (r : RelayResult) : Json :=
  match r.status_code, r.error with
  | some code, _ =>
      Json.obj [("url_index", Json.num r.url_index), ("url", Json.str r.url),
        ("status", Json.str r.status), ("status_code", Json.num code)]
  | none, some e =>
      Json.obj [("url_index", Json.num r.url_index), ("url", Json.str r.url),
        ("status", Json.str r.status), ("error", Json.str e)]
  | none, none =>
      Json.obj [("url_index", Json.num r.url_index), ("url", Json.str r.url),
        ("status", Json.str r.status)]

/-- A starlette JSONResponse: status code and JSON content. -/
structure JSONResponse where
  status_code : Nat
  content : Json

/-- An exception reaching one of the except clauses of `webhook_handler`
(src/main.py lines 158-182), raised outside the modelled pure computation,
carrying its message. The Python classes httpx.TimeoutException and
httpx.RequestError are matched in that order, before the catch-all. -/
inductive PyExc where
  | httpxTimeoutException (detail : String)
  | httpxRequestError (detail : String)
  | otherException (detail : String)
deriving DecidableEq, Repr

/-- What a FastAPI handler invocation produces: a returned JSONResponse, or
an HTTPException with a status code and detail. -/
inductive HandlerResult where
  | ok (resp : JSONResponse)
  | httpException (status_code : Nat) (detail : String)

/-- The HTTP status code the inbound caller observes. -/
def HandlerResult.httpStatus : HandlerResult → Nat
  | .ok resp => resp.status_code
  | .httpException code _ => code

/-- True when the handler returned rather than raised. -/
def HandlerResult.isOk : HandlerResult → Bool
  | .ok _ => true
  | .httpException _ _ => false

/-- src/main.py lines 63-182, `webhook_handler` (POST /webhook): builds the
envelope from headers and body, dispatches to every relay URL concurrently,
collects one entry per task into `relay_results`, and returns status 200
with content status "success". A `fault` input models an exception raised
inside the try body outside this pure computation: the first two except
clauses still return status 200 (with content status "timeout" or "error"
respectively), and the catch-all raises HTTPException 500. -/
def webhook_handler (urls : List String) (req : InboundRequest)
    (outcomes : List HttpxResult) (completionOrder : List Nat)
    (fault : Option PyExc) : HandlerResult :=
  match fault with
  | some (.httpxTimeoutException _) =>
      .ok ⟨200, Json.obj
        [("status", Json.str "timeout"),
         ("message", Json.str "Webhook received but relay timed out")]⟩
  | some (.httpxRequestError _) =>
      .ok ⟨200, Json.obj
        [("status", Json.str "error"),
         ("message", Json.str "Webhook received but relay failed")]⟩
  | some (.otherException _) => .httpException 500 "Internal server error"
  | none =>
      .ok ⟨200, Json.obj
        [("status", Json.str "success"),
         ("message", Json.str "Webhook received and relayed to all destinations"),
         ("relay_results",
           Json.arr ((relay_results urls outcomes completionOrder).map relayResultJson)),
         ("event", Json.str (drchrono_event req.headers)),
         ("delivery_id", Json.str (drchrono_delivery req.headers))]⟩

/-- The raw inbound body as `request.json()` (json.loads over the body
bytes) sees it: empty, valid UTF-8 that decodes as JSON, valid UTF-8 that
is not JSON (json.loads raises json.JSONDecodeError, carrying its message),
or bytes that are not valid UTF-8 (json.loads raises UnicodeDecodeError,
carrying its message). -/
inductive RawBody where
  | empty
  | valid (j : Json)
  | invalidJson (msg : String)
  | invalidUtf8 (msg : String)

/-- src/main.py lines 86-93, the body try/except, over the raw body: the
except clause at line 91 names json.JSONDecodeError only, so that error is
absorbed into an empty-object body, while a UnicodeDecodeError — which is
a ValueError but not a json.JSONDecodeError — escapes the block and
travels to the outer except clauses as an uncaught exception. -/
def parseBody : RawBody → Except PyExc BodyParse
  | .empty => .ok BodyParse.empty
  | .valid j => .ok (BodyParse.ok j)
  | .invalidJson m => .ok (BodyParse.jsonError m)
  | .invalidUtf8 m => .error (PyExc.otherException m)

/-- src/main.py lines 63-182 over the raw body: body reading and parsing
happen inside the outer try block, so an exception escaping `parseBody` is
exactly the fault reaching the except clauses (a UnicodeDecodeError matches
neither httpx.TimeoutException nor httpx.RequestError and falls to the
catch-all). When parsing raises, the envelope is never built, and the
handler's exception branches read nothing from the request, so the request
argument passed along with the fault is immaterial. -/
def webhook_handler_raw (urls : List String) (hs : List (String × String))
    (body : RawBody) (outcomes : List HttpxResult) (order : List Nat) :
    HandlerResult :=
  match parseBody body with
  | .error e => webhook_handler urls ⟨hs, BodyParse.empty⟩ outcomes order (some e)
  | .ok bp => webhook_handler urls ⟨hs, bp⟩ outcomes order none

/-- Python truthiness of a string: nonempty. -/
def pyTruthy (s : String) : Bool := s != ""

/-- `bool(VALUE and VALUE != placeholder)` as written at src/main.py lines
190-201: false for the empty string (falsy), otherwise the inequality. -/
def configuredFlag (value placeholder : String) : Bool :=
  pyTruthy value && (value != placeholder)

/-- One url entry of the status response. -/
structure UrlStatus where
  configured : Bool
  url : String
deriving DecidableEq, Repr

/-- Response of GET /webhook/status. -/
structure StatusResponse where
  webhook_secret_configured : Bool
  url_1 : UrlStatus
  url_2 : UrlStatus
  url_3 : UrlStatus
  relay_timeout : Int
deriving DecidableEq, Repr

/-- src/main.py lines 184-206, `webhook_status` (GET /webhook/status): a
pure function of the process configuration. -/
def webhook_status (env : String → Option String) (relayTimeout : Int) :
    StatusResponse :=
  { webhook_secret_configured :=
      configuredFlag (WEBHOOK_SECRET_TOKEN env) "your-secret-token-here",
    url_1 := ⟨configuredFlag (RELAY_URL_1 env)
        "https://your-destination-url-1.com/webhook", RELAY_URL_1 env⟩,
    url_2 := ⟨configuredFlag (RELAY_URL_2 env)
        "https://your-destination-url-2.com/webhook", RELAY_URL_2 env⟩,
    url_3 := ⟨configuredFlag (RELAY_URL_3 env)
        "https://your-destination-url-3.com/webhook", RELAY_URL_3 env⟩,
    relay_timeout := relayTimeout }

/-- Truncation to 32 bits. -/
def w32 (n : Nat) : Nat := n % 4294967296

/-- Right rotation of a 32-bit word. -/
def rotr32 (k x : Nat) : Nat := w32 ((x >>> k) ||| (x <<< (32 - k)))

/-- Bitwise choice, FIPS 180-4. -/
def ch (x y z : Nat) : Nat := (x &&& y) ^^^ ((x ^^^ 4294967295) &&& z)

/-- Bitwise majority, FIPS 180-4. -/
def maj (x y z : Nat) : Nat := (x &&& y) ^^^ (x &&& z) ^^^ (y &&& z)

/-- FIPS 180-4 Sigma0. -/
def bigSigma0 (x : Nat) : Nat := rotr32 2 x ^^^ rotr32 13 x ^^^ rotr32 22 x

/-- FIPS 180-4 Sigma1. -/
def bigSigma1 (x : Nat) : Nat := rotr32 6 x ^^^ rotr32 11 x ^^^ rotr32 25 x

/-- FIPS 180-4 sigma0. -/
def smallSigma0 (x : Nat) : Nat := rotr32 7 x ^^^ rotr32 18 x ^^^ (x >>> 3)

/-- FIPS 180-4 sigma1. -/
def smallSigma1 (x : Nat) : Nat := rotr32 17 x ^^^ rotr32 19 x ^^^ (x >>> 10)

/-- SHA-256 round constants, in decimal. -/
def sha256K : List Nat :=
  [1116352408, 1899447441, 3049323471, 3921009573,
   961987163, 1508970993, 2453635748, 2870763221,
   3624381080, 310598401, 607225278, 1426881987,
   1925078388, 2162078206, 2614888103, 3248222580,
   3835390401, 4022224774, 264347078, 604807628,
   770255983, 1249150122, 1555081692, 1996064986,
   2554220882, 2821834349, 2952996808, 3210313671,
   3336571891, 3584528711, 113926993, 338241895,
   666307205, 773529912, 1294757372, 1396182291,
   1695183700, 1986661051, 2177026350, 2456956037,
   2730485921, 2820302411, 3259730800, 3345764771,
   3516065817, 3600352804, 4094571909, 275423344,
   430227734, 506948616, 659060556, 883997877,
   958139571, 1322822218, 1537002063, 1747873779,
   1955562222, 2024104815, 2227730452, 2361852424,
   2428436474, 2756734187, 3204031479, 3329325298]

/-- The eight 32-bit words of working state. -/
structure Sha256State where
  a : Nat
  b : Nat
  c : Nat
  d : Nat
  e : Nat
  f : Nat
  g : Nat
  h : Nat
deriving DecidableEq, Repr

/-- SHA-256 initial hash value, in decimal. -/
def sha256Init : Sha256State :=
  ⟨1779033703, 3144134277, 1013904242, 2773480762,
   1359893119, 2600822924, 528734635, 1541459225⟩

/-- Big-endian byte expansion: the `k` low-order bytes of `n`, most
significant first. -/
def beBytes : Nat → Nat → List Nat
  | 0, _ => []
  | k + 1, n => beBytes k (n / 256) ++ [n % 256]

/-- FIPS 180-4 padding: append 0x80, zeros to 56 mod 64, and the 64-bit
big-endian bit length. -/
def sha256Pad (msg : List Nat) : List Nat :=
  msg ++ [128] ++ List.replicate ((119 - msg.length % 64) % 64) 0
      ++ beBytes 8 (8 * msg.length)

/-- Split a byte list into 64-byte blocks, structurally on a fuel bound. -/
def chunk64Go : Nat → List Nat → List (List Nat)
  | 0, _ => []
  | _ + 1, [] => []
  | fuel + 1, b :: rest =>
      (b :: rest).take 64 :: chunk64Go fuel ((b :: rest).drop 64)

/-- Split a byte list into 64-byte blocks. -/
def chunk64 (l : List Nat) : List (List Nat) := chunk64Go l.length l

/-- Big-endian 32-bit words of a byte list. -/
def bytesToWords : List Nat → List Nat
  | a :: b :: c :: d :: rest =>
      (((a * 256 + b) * 256 + c) * 256 + d) :: bytesToWords rest
  | _ => []

/-- Message schedule: the 16 block words extended to 64. -/
def sha256Schedule (block : List Nat) : Array Nat :=
  (List.range 48).foldl
    (fun w i =>
      let t := i + 16
      w.push (w32 (smallSigma1 (w.getD (t - 2) 0) + w.getD (t - 7) 0
        + smallSigma0 (w.getD (t - 15) 0) + w.getD (t - 16) 0)))
    (Array.mk (bytesToWords block))

/-- One SHA-256 compression round. -/
def sha256Round (k w : Nat) (s : Sha256State) : Sha256State :=
  let t1 := w32 (s.h + bigSigma1 s.e + ch s.e s.f s.g + k + w)
  let t2 := w32 (bigSigma0 s.a + maj s.a s.b s.c)
  ⟨w32 (t1 + t2), s.a, s.b, s.c, w32 (s.d + t1), s.e, s.f, s.g⟩

/-- Compression of one 64-byte block into the running hash state. -/
def sha256Compress (st : Sha256State) (block : List Nat) : Sha256State :=
  let ws := sha256Schedule block
  let r := (List.range 64).foldl
    (fun s t => sha256Round (sha256K.getD t 0) (ws.getD t 0) s) st
  ⟨w32 (st.a + r.a), w32 (st.b + r.b), w32 (st.c + r.c), w32 (st.d + r.d),
   w32 (st.e + r.e), w32 (st.f + r.f), w32 (st.g + r.g), w32 (st.h + r.h)⟩

/-- SHA-256 digest of a byte list, as 32 bytes. -/
def sha256Bytes (msg : List Nat) : List Nat :=
  let st := (chunk64 (sha256Pad msg)).foldl sha256Compress sha256Init
  beBytes 4 st.a ++ beBytes 4 st.b ++ beBytes 4 st.c ++ beBytes 4 st.d
    ++ beBytes 4 st.e ++ beBytes 4 st.f ++ beBytes 4 st.g ++ beBytes 4 st.h

/-- Lowercase hexadecimal digit. -/
def hexDigit (n : Nat) : Char :=
  if n < 10 then Char.ofNat (48 + n) else Char.ofNat (87 + n)

/-- Two lowercase hex digits of one byte. -/
def byteHex (b : Nat) : List Char := [hexDigit (b / 16), hexDigit (b % 16)]

/-- Lowercase hex rendering of a byte list, as hexdigest produces. -/
def bytesHex (bs : List Nat) : String := String.mk (bs.map byteHex).flatten

/-- UTF-8 encoding of one code point. -/
def utf8EncodeChar (c : Nat) : List Nat :=
  if c < 128 then [c]
  else if c < 2048 then [192 + c / 64, 128 + c % 64]
  else if c < 65536 then [224 + c / 4096, 128 + (c / 64) % 64, 128 + c % 64]
  else [240 + c / 262144, 128 + (c / 4096) % 64, 128 + (c / 64) % 64,
    128 + c % 64]

/-- The UTF-8 bytes of a string, as str.encode produces. -/
def strBytes (s : String) : List Nat :=
  (s.data.map fun c => utf8EncodeChar c.toNat).flatten

/-- HMAC-SHA256 (RFC 2104 with SHA-256, block size 64): what
`hmac.new(key, msg, hashlib.sha256)` computes. -/
def hmacSha256 (key msg : List Nat) : List Nat :=
  let k0 := if 64 < key.length then sha256Bytes key else key
  let k := k0 ++ List.replicate (64 - k0.length) 0
  let inner := sha256Bytes ((k.map fun b => b ^^^ 54) ++ msg)
  sha256Bytes ((k.map fun b => b ^^^ 92) ++ inner)

/-- The lowercase hexadecimal HMAC-SHA256 digest of a message string under
a key string, both UTF-8 encoded: src/main.py lines 46-50. -/
def hmacSha256Hex (key msg : String) : String :=
  bytesHex (hmacSha256 (strBytes key) (strBytes msg))

/-- src/main.py lines 34-61, `webhook_verification` (GET /webhook). The msg
query parameter is declared required via Query(...), so FastAPI rejects a
request without it as a client-error validation response (status 422)
before the handler body runs; with msg present the handler returns 200 and
the lowercase hex HMAC-SHA256 digest of msg under the configured secret. -/
def webhook_verification (env : String → Option String) (msg : Option String) :
    HandlerResult :=
  match msg with
  | none => .httpException 422 "Field required"
  | some m =>
      .ok ⟨200, Json.obj
        [("secret_token",
          Json.str (hmacSha256Hex (WEBHOOK_SECRET_TOKEN env) m))]⟩

/-- The JSON content of a returned response, null when the handler raised. -/
def HandlerResult.okContent : HandlerResult → Json
  | .ok resp => resp.content
  | .httpException _ _ => Json.null

/-- A sample environment: nothing set, every configuration value at its
placeholder default. -/
def sampleEnv : String → Option String := fun _ => none

/-- The relay URLs under the sample environment. -/
def sampleUrls : List String := RELAY_URLS sampleEnv

/-- A sample settlement: destinations 1 and 3 reply, destination 2 times
out. -/
def sampleOutcomes : List HttpxResult :=
  [HttpxResult.response 200, HttpxResult.exc ExcKind.timeout "ReadTimeout",
   HttpxResult.response 503]

/-- A sample completion order: destination 3 settles first. -/
def sampleOrder : List Nat := [2, 0, 1]

/-- A sample inbound request with no drchrono headers and an empty body. -/
def sampleReq : InboundRequest :=
  ⟨[("content-type", "application/json")], BodyParse.empty⟩

/-- Selecting each index of a list in order reproduces the list. -/
theorem filterMap_index_id {α : Type} (l : List α) :
    ((List.range l.length).filterMap fun i => l[i]?) = l := by
  induction l with
  | nil => rfl
  | cons a t ih =>
      rw [List.length_cons, List.range_succ_eq_map, List.filterMap_cons,
        List.filterMap_map]
      simp only [List.getElem?_cons_zero, Function.comp_def,
        List.getElem?_cons_succ]
      rw [ih]

/-- When every task index occurs in the completion order, gather hands back
the settled values in task order: completion order does not leak. -/
theorem gatherReassemble_eq_of_mem {α : Type} (tasks : List α)
    (order : List Nat) (hmem : ∀ i, i < tasks.length → i ∈ order) :
    gatherReassemble tasks order = tasks := by
  unfold gatherReassemble
  rw [List.filterMap_congr (g := fun i => tasks[i]?) ?_]
  · exact filterMap_index_id tasks
  · intro i hi
    rw [List.mem_range] at hi
    simp [hmem i hi]

/-- The recorded index of a processed result is the enumeration index. -/
theorem processResult_url_index (i : Nat) (u : String) (r : HttpxResult) :
    (processResult i u r).url_index = i := by cases r <;> rfl

/-- The recorded url of a processed result is the paired url. -/
theorem processResult_url (i : Nat) (u : String) (r : HttpxResult) :
    (processResult i u r).url = u := by cases r <;> rfl

/-- Result processing preserves the length of the settled-task list. -/
theorem processResultsFrom_length (i : Nat) (urls : List String)
    (rs : List HttpxResult) :
    (processResultsFrom i urls rs).length = rs.length := by
  induction rs generalizing i with
  | nil => rfl
  | cons r t ih => simp [processResultsFrom, ih]

/-- Entry j of the processed list is the processing of settled task j. -/
theorem processResultsFrom_getElem? (urls : List String)
    (rs : List HttpxResult) (i j : Nat) :
    (processResultsFrom (i + 1) urls rs)[j]?
      = (rs[j]?).map (processResult (i + j + 1) (urls.getD (i + j) "")) := by
  induction rs generalizing i j with
  | nil => simp [processResultsFrom]
  | cons r t ih =>
      cases j with
      | zero => simp [processResultsFrom]
      | succ j =>
          have h1 : (processResultsFrom (i + 1) urls (r :: t))[j + 1]?
              = (processResultsFrom (i + 1 + 1) urls t)[j]? := by
            simp [processResultsFrom]
          rw [h1, ih (i + 1) j]
          have h2 : i + 1 + j = i + (j + 1) := by omega
          rw [h2, List.getElem?_cons_succ]

/-- The recorded indices of the processed list count up from the start. -/
theorem processResultsFrom_map_index (urls : List String)
    (rs : List HttpxResult) (i : Nat) :
    (processResultsFrom i urls rs).map (fun r => r.url_index)
      = List.range' i rs.length := by
  induction rs generalizing i with
  | nil => rfl
  | cons r t ih =>
      simp [processResultsFrom, processResult_url_index, ih, List.range'_succ]

/-- The recorded urls of the processed list are read off by index. -/
theorem processResultsFrom_map_url (urls : List String)
    (rs : List HttpxResult) (i : Nat) :
    (processResultsFrom (i + 1) urls rs).map (fun r => r.url)
      = (List.range' i rs.length).map (fun j => urls.getD j "") := by
  induction rs generalizing i with
  | nil => rfl
  | cons r t ih =>
      simp only [processResultsFrom, List.map_cons, processResult_url,
        Nat.add_sub_cancel, List.length_cons, List.range'_succ]
      rw [ih (i + 1)]

/-- Reading a list off by index reproduces the list. -/
theorem map_getD_range (urls : List String) :
    (List.range urls.length).map (fun j => urls.getD j "") = urls := by
  induction urls with
  | nil => rfl
  | cons a t ih =>
      rw [List.length_cons, List.range_succ_eq_map, List.map_cons,
        List.map_map]
      simp only [Function.comp_def, List.getD_cons_succ, List.getD_cons_zero]
      rw [ih]

/-- Entry j of the dispatched relay results, under a complete completion
order: the processing of settled task j against configured url j. -/
theorem relay_results_getElem? (urls : List String)
    (outcomes : List HttpxResult) (order : List Nat)
    (hmem : ∀ i, i < outcomes.length → i ∈ order) (j : Nat) :
    (relay_results urls outcomes order)[j]?
      = (outcomes[j]?).map (processResult (j + 1) (urls.getD j "")) := by
  unfold relay_results
  rw [gatherReassemble_eq_of_mem outcomes order hmem]
  have h := processResultsFrom_getElem? urls outcomes 0 j
  simpa using h

/-- C1: for every inbound POST request and every combination of
per-destination relay outcomes (all success, all failure, timeouts, mixed)
and even for an httpx timeout or request error escaping to the except
clauses, the HTTP status code returned to the inbound caller is 200; only
an unexpected handler-internal fault (the catch-all except clause) produces
a 500. -/
theorem inbound_status_always_success (urls : List String)
    (req : InboundRequest) (outcomes : List HttpxResult) (order : List Nat)
    (fault : Option PyExc) :
    (webhook_handler urls req outcomes order fault).httpStatus = 200
    ∨ ((∃ s, fault = some (PyExc.otherException s))
        ∧ (webhook_handler urls req outcomes order fault).httpStatus = 500) := by
  match fault with
  | none => exact Or.inl rfl
  | some (.httpxTimeoutException d) => exact Or.inl rfl
  | some (.httpxRequestError d) => exact Or.inl rfl
  | some (.otherException d) => exact Or.inr ⟨⟨d, rfl⟩, rfl⟩

/-- C2 counterexample: with the three configured destinations, destination
2 timing out and destinations 1 and 3 succeeding, the aggregate status
field of the response is the constant "success" — not "timeout" and not a
partial-error marker — and destination 2 is recorded with status "error",
not with a Timeout category. -/
theorem overall_status_counterexample :
    (webhook_handler sampleUrls sampleReq sampleOutcomes sampleOrder
        none).okContent.getField "status" = some (Json.str "success")
    ∧ (relay_results sampleUrls sampleOutcomes sampleOrder)[1]?
      = some ⟨2, RELAY_URL_2 sampleEnv, "error", none, some "ReadTimeout"⟩
    ∧ ("success" : String) ≠ "timeout"
    ∧ ("success" : String) ≠ "partial_error"
    ∧ ("error" : String) ≠ "timeout" :=
  ⟨rfl, by decide, by decide, by decide, by decide⟩

/-- C2 (amended): for every inbound POST request, the aggregate status
field returned by the dispatch path is the constant "success" regardless of
the per-destination outcomes; a destination that times out is recorded in
relay_results with status "error" and its detail string, not with a
distinct Timeout status. -/
theorem aggregate_status_success_timeout_as_error (urls : List String)
    (req : InboundRequest) (outcomes : List HttpxResult) (order : List Nat)
    (hmem : ∀ i, i < outcomes.length → i ∈ order) (j : Nat) (d : String)
    (hj : outcomes[j]? = some (HttpxResult.exc ExcKind.timeout d)) :
    (webhook_handler urls req outcomes order none).okContent.getField
        "status" = some (Json.str "success")
    ∧ (relay_results urls outcomes order)[j]?
      = some ⟨j + 1, urls.getD j "", "error", none, some d⟩ := by
  refine ⟨rfl, ?_⟩
  rw [relay_results_getElem? urls outcomes order hmem j, hj]
  rfl

/-- Witness for C2 (amended) at the sample scenario: three destinations,
destination 2 times out, destinations 1 and 3 reply. -/
theorem aggregate_status_success_timeout_as_error_witness :
    ((∀ i, i < sampleOutcomes.length → i ∈ sampleOrder)
      ∧ sampleOutcomes[1]?
        = some (HttpxResult.exc ExcKind.timeout "ReadTimeout"))
    ∧ ((webhook_handler sampleUrls sampleReq sampleOutcomes sampleOrder
          none).okContent.getField "status" = some (Json.str "success")
      ∧ (relay_results sampleUrls sampleOutcomes sampleOrder)[1]?
        = some ⟨2, sampleUrls.getD 1 "", "error", none, some "ReadTimeout"⟩) :=
  ⟨⟨by decide, by decide⟩,
    aggregate_status_success_timeout_as_error sampleUrls sampleReq
      sampleOutcomes sampleOrder (by decide) 1 "ReadTimeout" (by decide)⟩

/-- C3 counterexample: a destination attempt that times out and one that
fails with another transport error are recorded with the same status
string "error" — the per-destination result does not carry a separate
Timeout category. -/
theorem timeout_not_distinct_counterexample :
    (processResult 2 "https://your-destination-url-2.com/webhook"
        (HttpxResult.exc ExcKind.timeout "ReadTimeout")).status
      = (processResult 2 "https://your-destination-url-2.com/webhook"
        (HttpxResult.exc ExcKind.transport "ConnectError")).status
    ∧ (processResult 2 "https://your-destination-url-2.com/webhook"
        (HttpxResult.exc ExcKind.timeout "ReadTimeout")).status = "error" :=
  ⟨rfl, rfl⟩

/-- C3 (amended): for every destination attempt, a received reply of any
HTTP status is recorded as status "success" with the code verbatim, and
any transport failure — timeout included — is recorded as the single
category "error" with its human-readable detail string; timeout is not
distinguished from other transport failures in the per-destination
result. -/
theorem outcome_classification (i : Nat) (url : String) (code : Nat)
    (k : ExcKind) (d : String) :
    processResult i url (HttpxResult.response code)
      = ⟨i, url, "success", some code, none⟩
    ∧ processResult i url (HttpxResult.exc k d)
      = ⟨i, url, "error", none, some d⟩ :=
  ⟨rfl, rfl⟩

/-- C4: for every inbound POST request and destination list, given one
settled outcome per task and a completion order covering every task, the
dispatcher produces exactly one outcome per configured destination: the
relay_results list has exactly the length of the destination list, its
recorded indices are 1, 2, ..., N in order, its recorded urls are the
configured urls in configured order, the result does not depend on the
completion order, and the response body carries exactly this list. -/
theorem dispatch_complete_ordered (urls : List String) (req : InboundRequest)
    (outcomes : List HttpxResult) (order : List Nat)
    (hlen : outcomes.length = urls.length)
    (hmem : ∀ i, i < outcomes.length → i ∈ order) :
    (relay_results urls outcomes order).length = urls.length
    ∧ (relay_results urls outcomes order).map (fun r => r.url_index)
        = List.range' 1 urls.length
    ∧ (relay_results urls outcomes order).map (fun r => r.url) = urls
    ∧ (∀ order2, (∀ i, i < outcomes.length → i ∈ order2) →
        relay_results urls outcomes order2 = relay_results urls outcomes order)
    ∧ (webhook_handler urls req outcomes order none).okContent.getField
        "relay_results"
      = some (Json.arr
          ((relay_results urls outcomes order).map relayResultJson)) := by
  have hg : gatherReassemble outcomes order = outcomes :=
    gatherReassemble_eq_of_mem outcomes order hmem
  refine ⟨?_, ?_, ?_, ?_, rfl⟩
  · simp only [relay_results, hg, processResultsFrom_length, hlen]
  · simp only [relay_results, hg, processResultsFrom_map_index, hlen]
  · simp only [relay_results, hg]
    have h := processResultsFrom_map_url urls outcomes 0
    simp only [Nat.zero_add] at h
    rw [h, hlen, ← List.range_eq_range', map_getD_range]
  · intro order2 hmem2
    simp only [relay_results, hg,
      gatherReassemble_eq_of_mem outcomes order2 hmem2]

/-- Witness for C4 at the sample scenario: three destinations, mixed
outcomes, completion order 3, 1, 2. -/
theorem dispatch_complete_ordered_witness :
    (sampleOutcomes.length = sampleUrls.length
      ∧ (∀ i, i < sampleOutcomes.length → i ∈ sampleOrder))
    ∧ ((relay_results sampleUrls sampleOutcomes sampleOrder).length
          = sampleUrls.length
      ∧ (relay_results sampleUrls sampleOutcomes sampleOrder).map
          (fun r => r.url_index) = List.range' 1 sampleUrls.length
      ∧ (relay_results sampleUrls sampleOutcomes sampleOrder).map
          (fun r => r.url) = sampleUrls
      ∧ (∀ order2, (∀ i, i < sampleOutcomes.length → i ∈ order2) →
          relay_results sampleUrls sampleOutcomes order2
            = relay_results sampleUrls sampleOutcomes sampleOrder)
      ∧ (webhook_handler sampleUrls sampleReq sampleOutcomes sampleOrder
            none).okContent.getField "relay_results"
        = some (Json.arr
            ((relay_results sampleUrls sampleOutcomes sampleOrder).map
              relayResultJson))) :=
  ⟨⟨by decide, by decide⟩,
    dispatch_complete_ordered sampleUrls sampleReq sampleOutcomes sampleOrder
      (by decide) (by decide)⟩

/-- C5: any failure of an individual outbound destination call is contained
and converted into a structured relay_results entry — the handler returns
(never raises) for every combination of settled outcomes — and outcomes
are independent: changing other destinations' settlements never changes a
destination's recorded entry. -/
theorem failures_contained_independent (urls : List String)
    (req : InboundRequest) (outcomes : List HttpxResult) (order : List Nat)
    (hmem : ∀ i, i < outcomes.length → i ∈ order) :
    (webhook_handler urls req outcomes order none).isOk = true
    ∧ (∀ (j : Nat) (k : ExcKind) (d : String),
        outcomes[j]? = some (HttpxResult.exc k d) →
        (relay_results urls outcomes order)[j]?
          = some (⟨j + 1, urls.getD j "", "error", none, some d⟩ : RelayResult))
    ∧ (∀ (outcomes2 : List HttpxResult) (order2 : List Nat) (j : Nat),
        (∀ i, i < outcomes2.length → i ∈ order2) →
        outcomes2[j]? = outcomes[j]? →
        (relay_results urls outcomes2 order2)[j]?
          = (relay_results urls outcomes order)[j]?) := by
  refine ⟨rfl, ?_, ?_⟩
  · intro j k d hj
    rw [relay_results_getElem? urls outcomes order hmem j, hj]
    rfl
  · intro outcomes2 order2 j hmem2 heq
    rw [relay_results_getElem? urls outcomes2 order2 hmem2 j,
      relay_results_getElem? urls outcomes order hmem j, heq]

/-- Witness for C5 at the sample scenario. -/
theorem failures_contained_independent_witness :
    (∀ i, i < sampleOutcomes.length → i ∈ sampleOrder)
    ∧ ((webhook_handler sampleUrls sampleReq sampleOutcomes sampleOrder
          none).isOk = true
      ∧ (∀ (j : Nat) (k : ExcKind) (d : String),
          sampleOutcomes[j]? = some (HttpxResult.exc k d) →
          (relay_results sampleUrls sampleOutcomes sampleOrder)[j]?
            = some (⟨j + 1, sampleUrls.getD j "", "error", none,
                some d⟩ : RelayResult))
      ∧ (∀ (outcomes2 : List HttpxResult) (order2 : List Nat) (j : Nat),
          (∀ i, i < outcomes2.length → i ∈ order2) →
          outcomes2[j]? = sampleOutcomes[j]? →
          (relay_results sampleUrls outcomes2 order2)[j]?
            = (relay_results sampleUrls sampleOutcomes sampleOrder)[j]?)) :=
  ⟨by decide,
    failures_contained_independent sampleUrls sampleReq sampleOutcomes
      sampleOrder (by decide)⟩

/-- Reference value for the verification scenario: the lowercase hex
HMAC-SHA256 digest of the message "ping" under the key "s3cr3t", computed
by the embedded FIPS 180-4 and RFC 2104 implementation and equal to the
independently computed digest. -/
theorem hmacSha256Hex_s3cr3t_ping :
    hmacSha256Hex "s3cr3t" "ping"
      = "bd17757e83820532e64a24f25fd211310d3f2e5527c6546e2ff44786fd17d7b1" := by
  decide

/-- C6: for every challenge string msg and configured secret, GET /webhook
with msg returns status 200 with body carrying the lowercase hexadecimal
HMAC-SHA256 digest of msg under the secret; the same secret and msg always
yield the same response; and a request without msg fails as a client-error
validation response with status 422. -/
theorem verification_digest (env : String → Option String) (m : String) :
    webhook_verification env (some m)
      = HandlerResult.ok ⟨200, Json.obj
          [("secret_token",
            Json.str (hmacSha256Hex (WEBHOOK_SECRET_TOKEN env) m))]⟩
    ∧ (∀ (env2 : String → Option String) (m2 : String),
        WEBHOOK_SECRET_TOKEN env2 = WEBHOOK_SECRET_TOKEN env → m2 = m →
        webhook_verification env2 (some m2)
          = webhook_verification env (some m))
    ∧ (webhook_verification env none).isOk = false
    ∧ (webhook_verification env none).httpStatus = 422 := by
  refine ⟨rfl, ?_, rfl, rfl⟩
  intro env2 m2 hsec hm
  subst hm
  simp only [webhook_verification, hsec]

/-- C7 counterexample: a POST whose body bytes are not valid UTF-8 is not
normalized to an empty object and does not dispatch — json.loads raises
UnicodeDecodeError, which the except json.JSONDecodeError clause at
src/main.py line 91 does not catch, so it reaches the line-180 catch-all
and the inbound caller receives a 500. The envelope is never built, so
envelope construction does fail for this malformed inbound payload. -/
theorem invalid_utf8_body_rejected :
    webhook_handler_raw sampleUrls [("content-type", "application/json")]
        (RawBody.invalidUtf8
          "utf-8 codec cannot decode byte 0xff in position 0: invalid start byte")
        sampleOutcomes sampleOrder
      = HandlerResult.httpException 500 "Internal server error"
    ∧ (webhook_handler_raw sampleUrls [("content-type", "application/json")]
        (RawBody.invalidUtf8
          "utf-8 codec cannot decode byte 0xff in position 0: invalid start byte")
        sampleOutcomes sampleOrder).isOk = false :=
  ⟨rfl, rfl⟩

/-- C7 (amended): envelope construction tolerates an empty body and a UTF-8
body that fails JSON decoding — the json.JSONDecodeError is caught, the
body degrades to an empty JSON object, the request still dispatches to all
destinations, and a missing event-type header yields "unknown" while
missing signature and delivery headers yield empty strings — but a body
that is not valid UTF-8 raises UnicodeDecodeError, which the except
json.JSONDecodeError clause does not catch: that request is rejected with
status 500 without dispatching. -/
theorem envelope_tolerates_json_decode_errors (hs : List (String × String))
    (e : String) (urls : List String) (outcomes : List HttpxResult)
    (order : List Nat) (t : Int)
    (hev : hs.lookup "x-drchrono-event" = none)
    (hsig : hs.lookup "x-drchrono-signature" = none)
    (hdel : hs.lookup "x-drchrono-delivery" = none) :
    webhook_handler_raw urls hs (RawBody.invalidJson e) outcomes order
      = webhook_handler urls ⟨hs, BodyParse.jsonError e⟩ outcomes order none
    ∧ webhook_handler_raw urls hs RawBody.empty outcomes order
      = webhook_handler urls ⟨hs, BodyParse.empty⟩ outcomes order none
    ∧ json_body (BodyParse.jsonError e) = Json.obj []
    ∧ json_body BodyParse.empty = Json.obj []
    ∧ drchrono_event hs = "unknown"
    ∧ drchrono_signature hs = ""
    ∧ drchrono_delivery hs = ""
    ∧ buildTasks urls t (relay_data ⟨hs, BodyParse.jsonError e⟩)
        = buildTasks urls t (relay_data ⟨hs, BodyParse.ok (Json.obj [])⟩)
    ∧ (webhook_handler_raw urls hs (RawBody.invalidJson e) outcomes
        order).isOk = true
    ∧ (webhook_handler_raw urls hs (RawBody.invalidJson e) outcomes
        order).okContent.getField "event" = some (Json.str "unknown")
    ∧ (∀ m : String,
        (webhook_handler_raw urls hs (RawBody.invalidUtf8 m) outcomes
          order).httpStatus = 500
        ∧ (webhook_handler_raw urls hs (RawBody.invalidUtf8 m) outcomes
          order).isOk = false) := by
  have hev2 : drchrono_event hs = "unknown" := by
    rw [drchrono_event, headerGet, hev]
    rfl
  refine ⟨rfl, rfl, rfl, rfl, hev2, ?_, ?_, rfl, rfl, ?_, fun m => ⟨rfl, rfl⟩⟩
  · rw [drchrono_signature, headerGet, hsig]
    rfl
  · rw [drchrono_delivery, headerGet, hdel]
    rfl
  · show some (Json.str (drchrono_event hs)) = some (Json.str "unknown")
    rw [hev2]

/-- Witness for C7 (amended): a request whose headers carry none of the
drchrono names and whose UTF-8 body failed to decode as JSON. -/
theorem envelope_tolerates_json_decode_errors_witness :
    ((([("content-type", "application/json")] : List (String × String)).lookup
          "x-drchrono-event" = none
      ∧ ([("content-type", "application/json")] : List (String × String)).lookup
          "x-drchrono-signature" = none
      ∧ ([("content-type", "application/json")] : List (String × String)).lookup
          "x-drchrono-delivery" = none)
    ∧ (webhook_handler_raw sampleUrls [("content-type", "application/json")]
          (RawBody.invalidJson "Expecting value") sampleOutcomes sampleOrder
        = webhook_handler sampleUrls ⟨[("content-type", "application/json")],
            BodyParse.jsonError "Expecting value"⟩ sampleOutcomes sampleOrder
            none
      ∧ webhook_handler_raw sampleUrls [("content-type", "application/json")]
          RawBody.empty sampleOutcomes sampleOrder
        = webhook_handler sampleUrls ⟨[("content-type", "application/json")],
            BodyParse.empty⟩ sampleOutcomes sampleOrder none
      ∧ json_body (BodyParse.jsonError "Expecting value") = Json.obj []
      ∧ json_body BodyParse.empty = Json.obj []
      ∧ drchrono_event [("content-type", "application/json")] = "unknown"
      ∧ drchrono_signature [("content-type", "application/json")] = ""
      ∧ drchrono_delivery [("content-type", "application/json")] = ""
      ∧ buildTasks sampleUrls 30
          (relay_data ⟨[("content-type", "application/json")],
            BodyParse.jsonError "Expecting value"⟩)
        = buildTasks sampleUrls 30
          (relay_data ⟨[("content-type", "application/json")],
            BodyParse.ok (Json.obj [])⟩)
      ∧ (webhook_handler_raw sampleUrls [("content-type", "application/json")]
          (RawBody.invalidJson "Expecting value") sampleOutcomes
          sampleOrder).isOk = true
      ∧ (webhook_handler_raw sampleUrls [("content-type", "application/json")]
          (RawBody.invalidJson "Expecting value") sampleOutcomes
          sampleOrder).okContent.getField "event" = some (Json.str "unknown")
      ∧ (∀ m : String,
          (webhook_handler_raw sampleUrls
            [("content-type", "application/json")] (RawBody.invalidUtf8 m)
            sampleOutcomes sampleOrder).httpStatus = 500
          ∧ (webhook_handler_raw sampleUrls
            [("content-type", "application/json")] (RawBody.invalidUtf8 m)
            sampleOutcomes sampleOrder).isOk = false))) :=
  ⟨⟨by decide, by decide, by decide⟩,
    envelope_tolerates_json_decode_errors
      [("content-type", "application/json")] "Expecting value" sampleUrls
      sampleOutcomes sampleOrder 30 (by decide) (by decide) (by decide)⟩

/-- C8 counterexample: with RELAY_URL_2 set to the empty string, the
configured value differs from its documented placeholder default, yet the
status endpoint reports url_2 as not configured — the flag is not true
exactly when the value differs from the placeholder. -/
theorem status_flag_counterexample :
    RELAY_URL_2 (fun k => if k = "RELAY_URL_2" then some "" else none)
      ≠ "https://your-destination-url-2.com/webhook"
    ∧ (webhook_status (fun k => if k = "RELAY_URL_2" then some "" else none)
        30).url_2.configured = false :=
  ⟨by decide, rfl⟩

/-- C8 (amended): GET /webhook/status is a pure function of the
configuration; each configured flag is true exactly when the value is
non-empty AND differs from its documented placeholder default, and the
literal values and the relay timeout are reported verbatim. -/
theorem status_flags (env : String → Option String) (t : Int) :
    ((webhook_status env t).webhook_secret_configured = true
      ↔ (WEBHOOK_SECRET_TOKEN env ≠ ""
          ∧ WEBHOOK_SECRET_TOKEN env ≠ "your-secret-token-here"))
    ∧ ((webhook_status env t).url_1.configured = true
      ↔ (RELAY_URL_1 env ≠ ""
          ∧ RELAY_URL_1 env ≠ "https://your-destination-url-1.com/webhook"))
    ∧ ((webhook_status env t).url_2.configured = true
      ↔ (RELAY_URL_2 env ≠ ""
          ∧ RELAY_URL_2 env ≠ "https://your-destination-url-2.com/webhook"))
    ∧ ((webhook_status env t).url_3.configured = true
      ↔ (RELAY_URL_3 env ≠ ""
          ∧ RELAY_URL_3 env ≠ "https://your-destination-url-3.com/webhook"))
    ∧ (webhook_status env t).url_1.url = RELAY_URL_1 env
    ∧ (webhook_status env t).url_2.url = RELAY_URL_2 env
    ∧ (webhook_status env t).url_3.url = RELAY_URL_3 env
    ∧ (webhook_status env t).relay_timeout = t := by
  refine ⟨?_, ?_, ?_, ?_, rfl, rfl, rfl, rfl⟩ <;>
    simp [webhook_status, configuredFlag, pyTruthy, Bool.and_eq_true,
      bne_iff_ne, ne_eq]

/-- C9: with zero destinations configured, dispatch trivially completes:
the relay results list is empty, the aggregate status field is "success",
and the response status code is 200. -/
theorem zero_destinations_trivial (req : InboundRequest) (order : List Nat) :
    relay_results [] [] order = []
    ∧ (webhook_handler [] req [] order none).okContent.getField "status"
        = some (Json.str "success")
    ∧ (webhook_handler [] req [] order none).okContent.getField
        "relay_results" = some (Json.arr [])
    ∧ (webhook_handler [] req [] order none).httpStatus = 200 :=
  ⟨rfl, rfl, rfl, rfl⟩

/-- C10: within one inbound POST request every outbound destination call is
issued on the shared client and therefore carries the same single timeout
value, the process-wide RELAY_TIMEOUT; all timeout budgets are equal. -/
theorem shared_timeout (urls : List String) (RELAY_TIMEOUT : Int)
    (payload : Json) (c : OutboundCall)
    (hc : c ∈ buildTasks urls RELAY_TIMEOUT payload) :
    c.clientTimeout = RELAY_TIMEOUT
    ∧ ∀ c2 ∈ buildTasks urls RELAY_TIMEOUT payload,
        c2.clientTimeout = c.clientTimeout := by
  have hall : ∀ x ∈ buildTasks urls RELAY_TIMEOUT payload,
      x.clientTimeout = RELAY_TIMEOUT := by
    intro x hx
    simp only [buildTasks, List.mem_map] at hx
    obtain ⟨u, hu, rfl⟩ := hx
    rfl
  exact ⟨hall c hc, fun c2 hc2 => (hall c2 hc2).trans (hall c hc).symm⟩

/-- Witness for C10: the first outbound call of the sample configuration. -/
theorem shared_timeout_witness :
    ((⟨"https://your-destination-url-1.com/webhook", Json.obj [],
        "application/json", "Cameo-Webhook-Relay/1.0", 30⟩ : OutboundCall)
      ∈ buildTasks sampleUrls 30 (Json.obj []))
    ∧ ((⟨"https://your-destination-url-1.com/webhook", Json.obj [],
        "application/json", "Cameo-Webhook-Relay/1.0",
        30⟩ : OutboundCall).clientTimeout = 30
      ∧ ∀ c2 ∈ buildTasks sampleUrls 30 (Json.obj []),
          c2.clientTimeout
            = (⟨"https://your-destination-url-1.com/webhook", Json.obj [],
                "application/json", "Cameo-Webhook-Relay/1.0",
                30⟩ : OutboundCall).clientTimeout) :=
  ⟨List.Mem.head _,
    shared_timeout sampleUrls 30 (Json.obj []) _ (List.Mem.head _)⟩

end Cameo
